import Mathlib

/-!
Verification of the dental-assistant service core: the knowledge base, the
response formatter, the tool set, the agent dispatcher's fallback policy,
the per-session chat history of the query endpoint, and the image-analysis
endpoint boundary.

Python strings are embedded as `List Char` (written `Str`); the ASCII case
and whitespace operations used by the code are modelled directly.  The
remote model call inside the dispatcher is an opaque external effect: it is
embedded as an `Except` outcome parameter, so the dispatcher's own control
flow (success / empty-result / failure paths) is what the definitions
capture.
-/

namespace Dental

set_option maxRecDepth 40000

/-- Python `str` values, embedded as character lists. -/
abbrev Str := List Char

/-- The characters Python's default `str.strip()` removes (ASCII range). -/
def pyIsSpace (c : Char) : Bool :=
  c = ' ' || c = '\t' || c = '\n' || c = '\x0d' || c = '\x0b' || c = '\x0c'

/-- Python `str.lower()` on ASCII text: lowercase every character. -/
def pyLower (s : Str) : Str := s.map Char.toLower

/-- Python `str.strip()`: drop leading and trailing whitespace. -/
def pyStrip (s : Str) : Str :=
  ((s.dropWhile pyIsSpace).reverse.dropWhile pyIsSpace).reverse

/-- Worker for `pyTitle`: the flag records whether the previous character
was alphabetic (Python: whether it was cased). -/
def pyTitleAux (prevAlpha : Bool) : Str → Str
  | [] => []
  | c :: cs =>
    (if c.isAlpha then (if prevAlpha then c.toLower else c.toUpper) else c)
      :: pyTitleAux c.isAlpha cs

/-- Python `str.title()` on ASCII text: the first letter of every
alphabetic run is uppercased, the rest lowercased, other characters kept. -/
def pyTitle (s : Str) : Str := pyTitleAux false s

/-- Does `needle` occur at the start of `haystack`? -/
def leadsWith : Str → Str → Bool
  | [], _ => true
  | _ :: _, [] => false
  | c :: cs, d :: ds => c = d && leadsWith cs ds

/-- Python `needle in haystack` on strings: substring containment. -/
def containsSub : Str → Str → Bool
  | [], needle => needle.isEmpty
  | c :: rest, needle => leadsWith needle (c :: rest) || containsSub rest needle

/-- Python `dict.get(k)` on an insertion-ordered dictionary. -/
def dictFind {α : Type} : List (Str × α) → Str → Option α
  | [], _ => none
  | (k, v) :: rest, key => if k = key then some v else dictFind rest key

/-- Python `dict.get(k, default)`. -/
def dictGetD {α : Type} (d : List (Str × α)) (key : Str) (default : α) : α :=
  match dictFind d key with
  | some v => v
  | none => default

/-- Python `d[k] = v` on an insertion-ordered dictionary. -/
def dictSet {α : Type} : List (Str × α) → Str → α → List (Str × α)
  | [], key, v => [(key, v)]
  | (k, w) :: rest, key, v =>
    if k = key then (k, v) :: rest else (k, w) :: dictSet rest key v

/-- Python `"\n".join(parts)`. -/
def joinNl : List Str → Str
  | [] => []
  | [x] => x
  | x :: y :: ys => x ++ '\n' :: joinNl (y :: ys)

/-- Splitting a string at every newline character; the inverse of
`joinNl` on newline-free parts. -/
def splitNl : Str → List Str
  | [] => [[]]
  | c :: rest =>
    if c = '\n' then [] :: splitNl rest
    else
      match splitNl rest with
      | [] => [[c]]
      | p :: ps => (c :: p) :: ps

/-- `app.py` `DotFormatter.format_list`: each item rendered as
`. **item**`, joined by newlines. -/
def format_list (items : List Str) : Str :=
  joinNl (items.map (fun item => ". **".data ++ item ++ "**".data))

/-- `app.py` `DotFormatter.format_numbered`: each item rendered as
`{i+1}. **item**` with its 1-based index, joined by newlines. -/
def format_numbered (items : List Str) : Str :=
  joinNl
    (items.enum.map (fun p => (Nat.repr (p.1 + 1)).data ++ ". **".data ++ p.2 ++ "**".data))

/-- The spec's words for the numbered formatter, written independently of
the code's `enumerate`: a running 1-based counter prefixes each item in
order.  Compared against `format_numbered` in the C8 theorem. -/
def specNumberedItems (n : Nat) : List Str → List Str
  | [] => []
  | x :: xs =>
    ((Nat.repr n).data ++ ". **".data ++ x ++ "**".data) :: specNumberedItems (n + 1) xs

/-- One entry of `CORE_CONTENT["conditions"]`. -/
structure ConditionEntry where
  purpose : Str
  how_to_use : Str
  benefits : Str
deriving DecidableEq

/-- `CORE_CONTENT["conditions"]` from `app.py`, in declaration order. -/
def conditions : List (Str × ConditionEntry) :=
  [("gum infection".data,
    ⟨"Detect gum inflammation or gingivitis".data,
     "Upload a photo of your gums and answer quiz questions".data,
     "Helps early detection and prevents progression".data⟩),
   ("tooth decay".data,
    ⟨"Identify cavities or decay".data,
     "Upload a tooth photo, select pain area, answer sensitivity quiz".data,
     "Provides early treatment recommendations".data⟩),
   ("sensitivity".data,
    ⟨"Detect enamel thinning or exposed roots".data,
     "Describe your symptoms (cold/hot/chewing pain)".data,
     "Guides next steps for treatment".data⟩)]

/-- `CORE_CONTENT["overview"]` from `app.py`. -/
def overview : List Str :=
  ["Smart Dental Assistant: Upload a photo + symptoms to get a diagnosis".data,
   "Symptom Quiz: Guided questions about your pain".data,
   "Voice Assistant: Ask about dental health".data,
   "Doctor Connect: Schedule appointments after diagnosis".data]

/-- `CORE_CONTENT["faqs"]` from `app.py`, in declaration order. -/
def faqs : List (Str × Str) :=
  [("what is this app".data,
    "It’s an AI-powered dental health checker that provides initial assessments.".data),
   ("how do i use it".data,
    "Take a clear photo of your teeth, upload it, and answer guided questions.".data),
   ("is this a replacement for a dentist".data,
    "No, it provides initial advice only. You should always consult a licensed dentist.".data)]

/-- `app.py` `get_condition_info`: look up the lowercased name; on a miss
return the guidance block, on a hit the four-item block whose first item is
the title-cased argument. -/
def get_condition_info (condition_name : Str) : Str :=
  match dictFind conditions (pyLower condition_name) with
  | none =>
    format_list
      ["I only know these conditions: ".data
         ++ List.intercalate ", ".data (conditions.map (fun p => p.1)),
       "Pick one!".data]
  | some condition =>
    format_list
      [pyTitle condition_name,
       "Purpose: ".data ++ condition.purpose,
       "How to use: ".data ++ condition.how_to_use,
       "Benefits: ".data ++ condition.benefits]

/-- `app.py` `get_overview`: the overview steps as a numbered list.  This
embeds the decorated function's *body* — what the agents runtime's
`on_invoke_tool` executes.  The module-level name `get_overview` in
`app.py` is the `@function_tool`-wrapped `FunctionTool` instance, which
is not itself callable; `functionToolTypeError` below models what a
direct call to it raises. -/
def get_overview : Str := format_numbered overview

/-- `app.py` `list_conditions`. -/
def list_conditions : Str :=
  format_list ("Conditions I can check:".data :: conditions.map (fun p => p.1))

/-- Loop body of `app.py` `answer_faq`: the first FAQ whose key is a
substring of the normalized question. -/
def faqLookup (q : Str) : List (Str × Str) → Option Str
  | [] => none
  | (k, v) :: rest => if containsSub q k then some v else faqLookup q rest

/-- `app.py` `answer_faq`: lowercase and strip the question, return the
first matching FAQ answer, else the two-line redirect. -/
def answer_faq (question : Str) : Str :=
  match faqLookup (pyStrip (pyLower question)) faqs with
  | some v => format_list [v]
  | none =>
    format_list
      ["I only answer questions about dental conditions and app usage.".data,
       "Try asking about gum infection, tooth decay, or sensitivity.".data]

/-- The agent's structured output schema (`MessageOutput` in `app.py`). -/
structure MessageOutput where
  response : Str
deriving DecidableEq

/-- The `TypeError` Python raises when a `FunctionTool` object is called:
`@function_tool` replaces the module-level `get_overview` with a
non-callable `FunctionTool` instance, so the direct `get_overview()`
calls inside `run_dental_agent` raise this error. -/
def functionToolTypeError : Str :=
  "'FunctionTool' object is not callable".data

/-- `app.py` `run_dental_agent`.  The awaited `Runner.run` call is the one
external effect; its outcome (a structured output, or any raised
exception) is passed in as an `Except` value.  The function returns
normally only when the structured `response` is non-empty after
stripping.  Both fallback branches execute `return get_overview()` — but
`get_overview` is the non-callable `FunctionTool`, so the empty-response
branch raises `TypeError` inside the `try`, the `except Exception`
handler catches it (as it catches any `Runner.run` failure), and the
handler's own `get_overview()` call raises the same `TypeError`, which
propagates to the caller.  The result is therefore an `Except`: `ok` on
the verbatim path, `error functionToolTypeError` on both fallback
paths. -/
def run_dental_agent (query : Str) (outcome : Except Str MessageOutput) : Except Str Str :=
  match outcome with
  | Except.ok result =>
    if (pyStrip result.response).isEmpty then Except.error functionToolTypeError
    else Except.ok result.response
  | Except.error _ => Except.error functionToolTypeError

/-- One chat message stored in a session history (`api.py` keeps these as
`{"role": ..., "content": ...}` dictionaries). -/
structure Turn where
  role : Str
  content : Str
deriving DecidableEq

/-- The in-memory `chat_sessions` dictionary of `api.py`. -/
abbrev Sessions := List (Str × List Turn)

/-- The body of the `/ask` endpoint (`AskRequest` in `api.py`). -/
structure AskRequest where
  query : Str
  session_id : Option Str
deriving DecidableEq

/-- The `/ask` endpoint's response (`AskResponse` in `api.py`). -/
structure AskResponse where
  session_id : Str
  response : Str
deriving DecidableEq

/-- `api.py` `ask_dental_agent`.  `fresh` is the `str(uuid.uuid4())` value
the handler would generate; Python's `request.session_id or
str(uuid.uuid4())` uses it when `session_id` is absent or the empty
string.  The user turn is appended, then `run_dental_agent` is awaited:
if it raises (see `run_dental_agent`), the exception propagates out of
the handler and the `chat_sessions[session_id] = history` line never
runs — though when the session already exists, the local `history`
aliases the stored list, so the in-place `append` of the user turn is
already visible in the store.  On a normal return the assistant turn is
appended and the history is stored under the session id. -/
def ask_dental_agent (fresh : Str) (outcome : Except Str MessageOutput)
    (request : AskRequest) (chat_sessions : Sessions) :
    Except Str AskResponse × Sessions :=
  let session_id :=
    match request.session_id with
    | some s => if s.isEmpty then fresh else s
    | none => fresh
  let history := dictGetD chat_sessions session_id []
  let history1 := history ++ [⟨"user".data, request.query⟩]
  match run_dental_agent request.query outcome with
  | Except.error e =>
    (Except.error e,
     match dictFind chat_sessions session_id with
     | some _ => dictSet chat_sessions session_id history1
     | none => chat_sessions)
  | Except.ok response =>
    (Except.ok ⟨session_id, response⟩,
     dictSet chat_sessions session_id (history1 ++ [⟨"assistant".data, response⟩]))

/-- The observable result of a request to the `/analyze` endpoint. -/
inductive AnalyzeResult where
  /-- FastAPI rejects the request before the handler runs: the `file`
  parameter is declared `File(...)` (required) and was not supplied. -/
  | validationFailure : AnalyzeResult
  /-- The handler's `{"analysis": ...}` payload. -/
  | analysis : Str → AnalyzeResult
  /-- The handler's `{"error": str(e)}` payload. -/
  | error : Str → AnalyzeResult
deriving DecidableEq

/-- `api.py` `analyze` together with its framework boundary.  The handler
declares `file: UploadFile = File(...)`, a required parameter, so a
request carrying no image never reaches the handler body: FastAPI answers
with a validation failure.  With a file present, the handler's
`try`/`except` turns the outcome of the save-and-model-call block into
either an `analysis` or an `error` payload. -/
def analyze (file : Option Str) (symptoms : Str)
    (callOutcome : Except Str Str) : AnalyzeResult :=
  match file with
  | none => AnalyzeResult.validationFailure
  | some _ =>
    match callOutcome with
    | Except.ok text => AnalyzeResult.analysis text
    | Except.error e => AnalyzeResult.error e

/-! ### Character-level facts about the ASCII case maps -/

theorem uint32_le_iff (a b : UInt32) : a ≤ b ↔ a.toNat ≤ b.toNat := by
  rw [UInt32.le_def]; rfl

theorem toNat_ofNat_valid (n : Nat) (h : n.isValidChar) : (Char.ofNat n).toNat = n := by
  unfold Char.ofNat
  rw [dif_pos h]
  unfold Char.ofNatAux Char.toNat
  simp [UInt32.toNat, BitVec.toNat_ofNatLt]

theorem char_eq_of_toNat_eq {c d : Char} (h : c.toNat = d.toNat) : c = d := by
  apply Char.eq_of_val_eq
  apply UInt32.eq_of_toBitVec_eq
  apply BitVec.eq_of_toNat_eq
  exact h

theorem char_ofNat_toNat (c : Char) : Char.ofNat c.toNat = c :=
  char_eq_of_toNat_eq (toNat_ofNat_valid c.toNat c.valid)

theorem char_isAlpha_iff (c : Char) :
    c.isAlpha = true ↔ (65 ≤ c.toNat ∧ c.toNat ≤ 90) ∨ (97 ≤ c.toNat ∧ c.toNat ≤ 122) := by
  have h65 : ('A' : Char).val.toNat = 65 := rfl
  have h90 : ('Z' : Char).val.toNat = 90 := rfl
  have h97 : ('a' : Char).val.toNat = 97 := rfl
  have h122 : ('z' : Char).val.toNat = 122 := rfl
  simp [Char.isAlpha, Char.isUpper, Char.isLower, Char.le_def, uint32_le_iff, h65, h90, h97,
    h122, Char.toNat, UInt32.size]

theorem toLower_of_upper (c : Char) (h : c.toNat ≥ 65 ∧ c.toNat ≤ 90) :
    Char.toLower c = Char.ofNat (c.toNat + 32) := by
  simp only [Char.toLower]
  rw [if_pos h]

theorem toLower_of_not_upper (c : Char) (h : ¬(c.toNat ≥ 65 ∧ c.toNat ≤ 90)) :
    Char.toLower c = c := by
  simp only [Char.toLower]
  rw [if_neg h]

theorem toUpper_of_lower (c : Char) (h : c.toNat ≥ 97 ∧ c.toNat ≤ 122) :
    Char.toUpper c = Char.ofNat (c.toNat - 32) := by
  simp only [Char.toUpper]
  rw [if_pos h]

theorem toUpper_of_not_lower (c : Char) (h : ¬(c.toNat ≥ 97 ∧ c.toNat ≤ 122)) :
    Char.toUpper c = c := by
  simp only [Char.toUpper]
  rw [if_neg h]

/-- Characters with the same lowercase form also share their uppercase
form and their alphabetic status: lowercasing is a complete case
normalizer on the ASCII range. -/
theorem toLower_rel (c d : Char) (h : Char.toLower c = Char.toLower d) :
    Char.toUpper c = Char.toUpper d ∧ c.isAlpha = d.isAlpha := by
  by_cases hc : c.toNat ≥ 65 ∧ c.toNat ≤ 90 <;> by_cases hd : d.toNat ≥ 65 ∧ d.toNat ≤ 90
  · rw [toLower_of_upper c hc, toLower_of_upper d hd] at h
    have h2 := congrArg Char.toNat h
    rw [toNat_ofNat_valid _ (Or.inl (by omega)), toNat_ofNat_valid _ (Or.inl (by omega))] at h2
    have h3 : c = d := char_eq_of_toNat_eq (by omega)
    subst h3
    exact ⟨rfl, rfl⟩
  · rw [toLower_of_upper c hc, toLower_of_not_upper d hd] at h
    have h2 := congrArg Char.toNat h
    rw [toNat_ofNat_valid _ (Or.inl (by omega))] at h2
    constructor
    · rw [toUpper_of_not_lower c (by omega), toUpper_of_lower d (by omega)]
      rw [show d.toNat - 32 = c.toNat by omega, char_ofNat_toNat]
    · rw [show c.isAlpha = true from (char_isAlpha_iff c).mpr (Or.inl (by omega)),
        show d.isAlpha = true from (char_isAlpha_iff d).mpr (Or.inr (by omega))]
  · rw [toLower_of_not_upper c hc, toLower_of_upper d hd] at h
    have h2 := congrArg Char.toNat h
    rw [toNat_ofNat_valid _ (Or.inl (by omega))] at h2
    constructor
    · rw [toUpper_of_lower c (by omega), toUpper_of_not_lower d (by omega)]
      rw [show c.toNat - 32 = d.toNat by omega, char_ofNat_toNat]
    · rw [show c.isAlpha = true from (char_isAlpha_iff c).mpr (Or.inr (by omega)),
        show d.isAlpha = true from (char_isAlpha_iff d).mpr (Or.inl (by omega))]
  · rw [toLower_of_not_upper c hc, toLower_of_not_upper d hd] at h
    subst h
    exact ⟨rfl, rfl⟩

theorem toLower_ne_nl (c : Char) (h : c ≠ '\n') : Char.toLower c ≠ '\n' := by
  simp only [Char.toLower]
  split
  · intro hc
    have h2 := congrArg Char.toNat hc
    rw [toNat_ofNat_valid _ (Or.inl (by omega))] at h2
    have h3 : Char.toNat '\n' = 10 := rfl
    omega
  · exact h

theorem toUpper_ne_nl (c : Char) (h : c ≠ '\n') : Char.toUpper c ≠ '\n' := by
  simp only [Char.toUpper]
  split
  · intro hc
    have h2 := congrArg Char.toNat hc
    rw [toNat_ofNat_valid _ (Or.inl (by omega))] at h2
    have h3 : Char.toNat '\n' = 10 := rfl
    omega
  · exact h

theorem toLower_fix_of_not_alpha (c : Char) (h : c.isAlpha = false) : Char.toLower c = c := by
  apply toLower_of_not_upper
  intro hc
  rw [(char_isAlpha_iff c).mpr (Or.inl (by omega))] at h
  exact Bool.noConfusion h

/-! ### List-level helper lemmas -/

theorem map_id_of_mem (f : Char → Char) :
    ∀ (l : Str), (∀ c ∈ l, f c = c) → l.map f = l
  | [], _ => rfl
  | c :: cs, h => by
    simp only [List.map_cons]
    rw [h c (List.mem_cons_self _ _),
      map_id_of_mem f cs (fun x hx => h x (List.mem_cons_of_mem _ hx))]

theorem splitNl_shape (s : Str) : ∃ p ps, splitNl s = p :: ps := by
  induction s with
  | nil => exact ⟨[], [], rfl⟩
  | cons c cs ih =>
    obtain ⟨p, ps, hp⟩ := ih
    by_cases hc : c = '\n'
    · exact ⟨[], splitNl cs, by simp [splitNl, hc]⟩
    · exact ⟨c :: p, ps, by simp [splitNl, hc, hp]⟩

theorem splitNl_append (p : Str) (hp : '\n' ∉ p) (s hd : Str) (tl : List Str)
    (hs : splitNl s = hd :: tl) : splitNl (p ++ s) = (p ++ hd) :: tl := by
  induction p with
  | nil => simpa using hs
  | cons c p' ih =>
    have hc : c ≠ '\n' := by
      intro h
      apply hp
      rw [← h]
      exact List.mem_cons_self _ _
    have hp' : '\n' ∉ p' := fun h => hp (List.mem_cons_of_mem c h)
    have ih' := ih hp'
    simp [splitNl, hc, ih', List.cons_append]

/-- Splitting a newline-join of newline-free parts recovers the parts. -/
theorem splitNl_joinNl (hd : Str) (tl : List Str) (h : ∀ x ∈ hd :: tl, '\n' ∉ x) :
    splitNl (joinNl (hd :: tl)) = hd :: tl := by
  induction tl generalizing hd with
  | nil =>
    have h0 : splitNl (hd ++ []) = (hd ++ []) :: [] :=
      splitNl_append hd (h hd (List.mem_cons_self _ _)) [] [] [] rfl
    simpa [joinNl] using h0
  | cons y ys ih =>
    have hyys : ∀ x ∈ y :: ys, '\n' ∉ x := fun x hx => h x (List.mem_cons_of_mem _ hx)
    have ih' := ih y hyys
    have step : splitNl ('\n' :: joinNl (y :: ys)) = [] :: y :: ys := by
      simp [splitNl, ih']
    have main := splitNl_append hd (h hd (List.mem_cons_self _ _))
      ('\n' :: joinNl (y :: ys)) [] (y :: ys) step
    simpa [joinNl] using main

/-! ### Facts about `pyLower`, `pyTitle` and the dictionary operations -/

theorem pyLower_append (a b : Str) : pyLower (a ++ b) = pyLower a ++ pyLower b :=
  List.map_append _ a b

theorem pyTitleAux_no_nl :
    ∀ (s : Str), '\n' ∉ s → ∀ (b : Bool), '\n' ∉ pyTitleAux b s
  | [], _, b => by simp [pyTitleAux]
  | c :: cs, h, b => by
    have hc : c ≠ '\n' := by
      intro hh
      apply h
      rw [← hh]
      exact List.mem_cons_self _ _
    have hcs : '\n' ∉ cs := fun hh => h (List.mem_cons_of_mem _ hh)
    have htail := pyTitleAux_no_nl cs hcs c.isAlpha
    simp only [pyTitleAux, List.mem_cons, not_or]
    refine ⟨?_, htail⟩
    split_ifs with h1 h2
    · exact fun he => toLower_ne_nl c hc he.symm
    · exact fun he => toUpper_ne_nl c hc he.symm
    · exact fun he => hc he.symm

/-- Title-casing depends only on the lowercase image of the string:
lowercase-equal strings have equal title-cased forms. -/
theorem pyTitleAux_congr :
    ∀ (s t : Str), pyLower s = pyLower t → ∀ (b : Bool), pyTitleAux b s = pyTitleAux b t
  | [], t, h, b => by
    cases t with
    | nil => rfl
    | cons d ds => simp [pyLower] at h
  | c :: cs, t, h, b => by
    cases t with
    | nil => simp [pyLower] at h
    | cons d ds =>
      simp only [pyLower, List.map_cons, List.cons.injEq] at h
      obtain ⟨h1, h2⟩ := h
      obtain ⟨hup, halpha⟩ := toLower_rel c d h1
      have hrest := pyTitleAux_congr cs ds h2
      simp only [pyTitleAux]
      rw [halpha, hrest d.isAlpha]
      by_cases ha : d.isAlpha = true
      · rw [ha]
        cases b with
        | false => simp [hup]
        | true => simp [h1]
      · have ha' : d.isAlpha = false := by
          cases hh : d.isAlpha
          · rfl
          · exact absurd hh ha
        have hcd : c = d := by
          rw [toLower_fix_of_not_alpha c (halpha.trans ha'), toLower_fix_of_not_alpha d ha'] at h1
          exact h1
        rw [ha', hcd]

theorem pyTitle_congr (s t : Str) (h : pyLower s = pyLower t) : pyTitle s = pyTitle t :=
  pyTitleAux_congr s t h false

theorem dictFind_dictSet_self {α : Type} (d : List (Str × α)) (k : Str) (v : α) :
    dictFind (dictSet d k v) k = some v := by
  induction d with
  | nil => simp [dictSet, dictFind]
  | cons p rest ih =>
    obtain ⟨k', w⟩ := p
    by_cases h : k' = k
    · simp [dictSet, dictFind, h]
    · simp [dictSet, dictFind, h, ih]

/-- A successful lookup in the conditions table pins the key to one of the
three declared topic names and gives a newline-free entry. -/
theorem conditions_hit {k : Str} {v : ConditionEntry} (h : dictFind conditions k = some v) :
    (k = "gum infection".data ∨ k = "tooth decay".data ∨ k = "sensitivity".data) ∧
    '\n' ∉ v.purpose ∧ '\n' ∉ v.how_to_use ∧ '\n' ∉ v.benefits := by
  simp only [conditions, dictFind] at h
  by_cases h1 : "gum infection".data = k
  · rw [if_pos h1] at h
    have hv := Option.some.inj h
    subst hv
    exact ⟨Or.inl h1.symm, by decide, by decide, by decide⟩
  · rw [if_neg h1] at h
    by_cases h2 : "tooth decay".data = k
    · rw [if_pos h2] at h
      have hv := Option.some.inj h
      subst hv
      exact ⟨Or.inr (Or.inl h2.symm), by decide, by decide, by decide⟩
    · rw [if_neg h2] at h
      by_cases h3 : "sensitivity".data = k
      · rw [if_pos h3] at h
        have hv := Option.some.inj h
        subst hv
        exact ⟨Or.inr (Or.inr h3.symm), by decide, by decide, by decide⟩
      · rw [if_neg h3] at h
        exact absurd h (by simp)

/-- A name that hits the conditions table contains no newline: the table
keys are newline-free and lowercasing preserves newlines. -/
theorem hit_name_no_nl {name : Str} {v : ConditionEntry}
    (h : dictFind conditions (pyLower name) = some v) : '\n' ∉ name := by
  intro hmem
  have h1 : Char.toLower '\n' ∈ pyLower name := List.mem_map_of_mem _ hmem
  rw [show Char.toLower '\n' = '\n' from rfl] at h1
  obtain ⟨hk, -⟩ := conditions_hit h
  rcases hk with hk | hk | hk <;> rw [hk] at h1 <;> revert h1 <;> decide

/-! ### Claim theorems -/

/-- C1 (code bug): the claim — and the code's own evident intent, its
`try`/`except` around `return get_overview()` — is that a raising model
call makes `run_dental_agent` return the overview text with no exception
escaping.  In fact both fallback branches call the module-level
`get_overview`, which `@function_tool` replaced with a non-callable
`FunctionTool`, so the `except` handler raises `TypeError` and that
exception propagates to the caller; the overview text is never
returned. -/
theorem C1_error_fallback (query err : Str) (hq : query ≠ []) :
    run_dental_agent query (Except.error err) = Except.error functionToolTypeError ∧
    run_dental_agent query (Except.error err) ≠ Except.ok get_overview :=
  ⟨rfl, fun h => Except.noConfusion h⟩

/-- Witness for C1 at the query `"hi"` and a concrete raised error. -/
theorem C1_error_fallback_witness :
    "hi".data ≠ ([] : Str) ∧
    run_dental_agent "hi".data (Except.error "boom".data) =
      Except.error functionToolTypeError :=
  ⟨by decide, (C1_error_fallback "hi".data "boom".data (by decide)).1⟩

/-- C2 (code bug): the verbatim half of the claim holds — a structured
`response` that is non-empty after stripping is returned as-is — but on
an empty or whitespace-only `response` the code does not substitute the
overview text: its `return get_overview()` calls the non-callable
`FunctionTool` and raises `TypeError` inside the `try`, and the `except`
handler's identical call raises again, so the `TypeError` propagates and
the dispatcher neither returns the overview nor guarantees a non-empty
string. -/
theorem C2_success_paths (query r : Str) :
    (pyStrip r ≠ [] → run_dental_agent query (Except.ok ⟨r⟩) = Except.ok r) ∧
    (pyStrip r = [] →
      run_dental_agent query (Except.ok ⟨r⟩) = Except.error functionToolTypeError) ∧
    (pyStrip r = [] →
      run_dental_agent query (Except.ok ⟨r⟩) ≠ Except.ok get_overview) := by
  by_cases h : pyStrip r = []
  · have hE : (pyStrip r).isEmpty = true := by rw [h]; rfl
    refine ⟨fun hc => absurd h hc, fun _ => by simp [run_dental_agent, hE], fun _ => ?_⟩
    simp only [run_dental_agent, hE, if_true]
    exact fun hc => Except.noConfusion hc
  · have hE : (pyStrip r).isEmpty = false := by
      cases hE : (pyStrip r).isEmpty
      · rfl
      · exact absurd (List.isEmpty_iff.mp hE) h
    exact ⟨fun _ => by simp [run_dental_agent, hE], fun hc => absurd hc h,
      fun hc => absurd hc h⟩

/-- Witness for C2: a padded answer is returned verbatim; a
whitespace-only answer makes the dispatcher raise. -/
theorem C2_success_paths_witness :
    (pyStrip "  hi  ".data ≠ [] ∧
      run_dental_agent "q".data (Except.ok ⟨"  hi  ".data⟩) = Except.ok "  hi  ".data) ∧
    (pyStrip "   ".data = [] ∧
      run_dental_agent "q".data (Except.ok ⟨"   ".data⟩) =
        Except.error functionToolTypeError) :=
  ⟨⟨by decide, (C2_success_paths "q".data "  hi  ".data).1 (by decide)⟩,
   ⟨by decide, (C2_success_paths "q".data "   ".data).2.1 (by decide)⟩⟩

/-- C7 (amended): the `/analyze` handler declares its `file` parameter as
required, so a request with no image fails framework validation before
the handler runs — no `{error: ...}` payload is produced for a missing
image.  With a file present, the handler's `try`/`except` yields
`{analysis: ...}` on success and `{error: str(e)}` on failure. -/
theorem C7_analyze_missing_file :
    (∀ (symptoms : Str) (outcome : Except Str Str),
      analyze none symptoms outcome = AnalyzeResult.validationFailure) ∧
    (∀ (f symptoms a : Str),
      analyze (some f) symptoms (Except.ok a) = AnalyzeResult.analysis a) ∧
    (∀ (f symptoms e : Str),
      analyze (some f) symptoms (Except.error e) = AnalyzeResult.error e) :=
  ⟨fun _ _ => rfl, fun _ _ _ => rfl, fun _ _ _ => rfl⟩

/-- C7 counterexample: with no image provided the endpoint's result is the
framework validation failure, not the structured payload
`{error: "Please upload at least one image."}` the claim states. -/
theorem C7_counterexample :
    analyze none [] (Except.ok []) = AnalyzeResult.validationFailure ∧
    analyze none [] (Except.ok []) ≠
      AnalyzeResult.error "Please upload at least one image.".data :=
  ⟨rfl, by decide⟩

/-- A successful `/ask` call that omitted the session id answers with the
freshly generated identifier. -/
theorem ask_none_session_id (fresh : Str) (o : Except Str MessageOutput) (q : Str)
    (chat : Sessions) (resp : AskResponse)
    (h : (ask_dental_agent fresh o ⟨q, none⟩ chat).1 = Except.ok resp) :
    resp.session_id = fresh := by
  cases hr : run_dental_agent q o with
  | error e => simp [ask_dental_agent, hr] at h
  | ok r =>
    simp only [ask_dental_agent, hr] at h
    rw [← Except.ok.inj h]

/-- C3: two `/ask` calls that answer (the dispatcher returned — the only
way the endpoint yields a `session_id` at all) with the same fresh
session id leave that session's stored history with exactly the four
turns user, assistant, user, assistant in call order; two answering
calls that omit the session id reply with the generated identifiers,
which are distinct whenever the two `uuid4` draws are (the spec treats a
128-bit collision as negligible). -/
theorem C3_session_roundtrip :
    (∀ (chat0 : Sessions) (s q1 q2 f1 f2 r1 r2 : Str)
       (o1 o2 : Except Str MessageOutput),
      s ≠ [] →
      dictFind chat0 s = none →
      run_dental_agent q1 o1 = Except.ok r1 →
      run_dental_agent q2 o2 = Except.ok r2 →
      (ask_dental_agent f1 o1 ⟨q1, some s⟩ chat0).1 = Except.ok ⟨s, r1⟩ ∧
      dictFind (ask_dental_agent f2 o2 ⟨q2, some s⟩
          (ask_dental_agent f1 o1 ⟨q1, some s⟩ chat0).2).2 s =
        some [⟨"user".data, q1⟩, ⟨"assistant".data, r1⟩,
              ⟨"user".data, q2⟩, ⟨"assistant".data, r2⟩]) ∧
    (∀ (chat0 : Sessions) (q1 q2 f1 f2 : Str) (o1 o2 : Except Str MessageOutput)
       (resp1 resp2 : AskResponse),
      f1 ≠ f2 →
      (ask_dental_agent f1 o1 ⟨q1, none⟩ chat0).1 = Except.ok resp1 →
      (ask_dental_agent f2 o2 ⟨q2, none⟩
        (ask_dental_agent f1 o1 ⟨q1, none⟩ chat0).2).1 = Except.ok resp2 →
      resp1.session_id ≠ resp2.session_id) := by
  constructor
  · intro chat0 s q1 q2 f1 f2 r1 r2 o1 o2 hs h0 hr1 hr2
    have hsE : s.isEmpty = false := by
      cases hE : s.isEmpty
      · rfl
      · exact absurd (List.isEmpty_iff.mp hE) hs
    constructor
    · simp [ask_dental_agent, hsE, dictGetD, h0, hr1]
    · simp [ask_dental_agent, hsE, dictGetD, h0, hr1, hr2, dictFind_dictSet_self]
  · intro chat0 q1 q2 f1 f2 o1 o2 resp1 resp2 hne h1 h2
    rw [ask_none_session_id f1 o1 q1 chat0 resp1 h1,
      ask_none_session_id f2 o2 q2 _ resp2 h2]
    exact hne

/-- Witness for C3 on an initially empty session store, session id
`"sess"`, successful dispatcher outcomes, and distinct generated ids
`"u1"`, `"u2"`. -/
theorem C3_session_roundtrip_witness :
    ("sess".data ≠ ([] : Str) ∧
     dictFind ([] : Sessions) "sess".data = none ∧
     run_dental_agent "q1".data (Except.ok ⟨"a1".data⟩) = Except.ok "a1".data ∧
     run_dental_agent "q2".data (Except.ok ⟨"a2".data⟩) = Except.ok "a2".data ∧
     dictFind (ask_dental_agent "u2".data (Except.ok ⟨"a2".data⟩)
         ⟨"q2".data, some "sess".data⟩
         (ask_dental_agent "u1".data (Except.ok ⟨"a1".data⟩)
           ⟨"q1".data, some "sess".data⟩ []).2).2 "sess".data =
       some [⟨"user".data, "q1".data⟩, ⟨"assistant".data, "a1".data⟩,
             ⟨"user".data, "q2".data⟩, ⟨"assistant".data, "a2".data⟩]) ∧
    ("u1".data ≠ "u2".data ∧
     (ask_dental_agent "u1".data (Except.ok ⟨"a1".data⟩) ⟨"q1".data, none⟩ []).1 =
       Except.ok ⟨"u1".data, "a1".data⟩ ∧
     (ask_dental_agent "u2".data (Except.ok ⟨"a2".data⟩) ⟨"q2".data, none⟩
        (ask_dental_agent "u1".data (Except.ok ⟨"a1".data⟩) ⟨"q1".data, none⟩ []).2).1 =
       Except.ok ⟨"u2".data, "a2".data⟩ ∧
     (AskResponse.mk "u1".data "a1".data).session_id ≠
       (AskResponse.mk "u2".data "a2".data).session_id) :=
  ⟨⟨by decide, rfl, rfl, rfl,
    (C3_session_roundtrip.1 [] "sess".data "q1".data "q2".data "u1".data "u2".data
      "a1".data "a2".data (Except.ok ⟨"a1".data⟩) (Except.ok ⟨"a2".data⟩)
      (by decide) rfl rfl rfl).2⟩,
   ⟨by decide, rfl, rfl,
    C3_session_roundtrip.2 [] "q1".data "q2".data "u1".data "u2".data
      (Except.ok ⟨"a1".data⟩) (Except.ok ⟨"a2".data⟩)
      ⟨"u1".data, "a1".data⟩ ⟨"u2".data, "a2".data⟩ (by decide) rfl rfl⟩⟩

/-- C4: a question whose lowercased, trimmed form contains an FAQ key gets
that key's fixed answer, the first key in declaration order winning when
several match; casing never affects the result; a question matching no
key gets the fixed two-line redirect. -/
theorem C4_answer_faq (question : Str) :
    (containsSub (pyStrip (pyLower question)) "what is this app".data = true →
      answer_faq question =
        format_list
          ["It’s an AI-powered dental health checker that provides initial assessments.".data]) ∧
    (containsSub (pyStrip (pyLower question)) "what is this app".data = false →
      containsSub (pyStrip (pyLower question)) "how do i use it".data = true →
      answer_faq question =
        format_list
          ["Take a clear photo of your teeth, upload it, and answer guided questions.".data]) ∧
    (containsSub (pyStrip (pyLower question)) "what is this app".data = false →
      containsSub (pyStrip (pyLower question)) "how do i use it".data = false →
      containsSub (pyStrip (pyLower question)) "is this a replacement for a dentist".data = true →
      answer_faq question =
        format_list
          ["No, it provides initial advice only. You should always consult a licensed dentist.".data]) ∧
    (containsSub (pyStrip (pyLower question)) "what is this app".data = false →
      containsSub (pyStrip (pyLower question)) "how do i use it".data = false →
      containsSub (pyStrip (pyLower question)) "is this a replacement for a dentist".data = false →
      answer_faq question =
        format_list
          ["I only answer questions about dental conditions and app usage.".data,
           "Try asking about gum infection, tooth decay, or sensitivity.".data]) ∧
    (∀ q2 : Str, pyLower question = pyLower q2 → answer_faq question = answer_faq q2) := by
  refine ⟨?_, ?_, ?_, ?_, ?_⟩
  · intro h1
    simp [answer_faq, faqLookup, faqs, h1]
  · intro h1 h2
    simp [answer_faq, faqLookup, faqs, h1, h2]
  · intro h1 h2 h3
    simp [answer_faq, faqLookup, faqs, h1, h2, h3]
  · intro h1 h2 h3
    simp [answer_faq, faqLookup, faqs, h1, h2, h3]
  · intro q2 h
    simp only [answer_faq]
    rw [h]

/-- Witness for C4: a cased, padded question matching the first key; a
question matching no key; a casing variant pair. -/
theorem C4_answer_faq_witness :
    (containsSub (pyStrip (pyLower "  What IS this APP again?".data))
        "what is this app".data = true ∧
      answer_faq "  What IS this APP again?".data =
        format_list
          ["It’s an AI-powered dental health checker that provides initial assessments.".data]) ∧
    answer_faq "hello".data =
      format_list
        ["I only answer questions about dental conditions and app usage.".data,
         "Try asking about gum infection, tooth decay, or sensitivity.".data] ∧
    (pyLower "DENTIST?".data = pyLower "dentist?".data ∧
      answer_faq "DENTIST?".data = answer_faq "dentist?".data) :=
  ⟨⟨by decide, (C4_answer_faq "  What IS this APP again?".data).1 (by decide)⟩,
   (C4_answer_faq "hello".data).2.2.2.1 (by decide) (by decide) (by decide),
   ⟨by decide, (C4_answer_faq "DENTIST?".data).2.2.2.2 "dentist?".data (by decide)⟩⟩

/-- On a miss, `get_condition_info` produces the fixed guidance block. -/
theorem get_condition_info_miss (name : Str)
    (h : dictFind conditions (pyLower name) = none) :
    get_condition_info name =
      (". **I only know these conditions: gum infection, tooth decay, sensitivity**\n. **Pick one!**").data := by
  simp only [get_condition_info, h]
  decide

/-- C5: an unknown topic name is not an error: `get_condition_info`
returns the fixed guidance message, and that message contains every known
topic name. -/
theorem C5_unknown_condition (name : Str)
    (h : dictFind conditions (pyLower name) = none) :
    get_condition_info name =
      (". **I only know these conditions: gum infection, tooth decay, sensitivity**\n. **Pick one!**").data ∧
    ∀ k ∈ conditions.map Prod.fst, containsSub (get_condition_info name) k = true := by
  have hmiss := get_condition_info_miss name h
  refine ⟨hmiss, ?_⟩
  rw [hmiss]
  decide

/-- Witness for C5 at the unknown name `"pizza"`. -/
theorem C5_unknown_condition_witness :
    dictFind conditions (pyLower "pizza".data) = none ∧
    get_condition_info "pizza".data =
      (". **I only know these conditions: gum infection, tooth decay, sensitivity**\n. **Pick one!**").data :=
  ⟨by decide, (C5_unknown_condition "pizza".data (by decide)).1⟩

theorem append_no_nl {a b : Str} (ha : '\n' ∉ a) (hb : '\n' ∉ b) : '\n' ∉ a ++ b := by
  intro hm
  rcases List.mem_append.mp hm with hx | hx
  · exact ha hx
  · exact hb hx

/-- On a hit, splitting `get_condition_info`'s output at newlines yields
exactly the four rendered lines: title, purpose, how-to-use, benefits. -/
theorem get_condition_info_hit_split (name : Str) (entry : ConditionEntry)
    (h : dictFind conditions (pyLower name) = some entry) :
    splitNl (get_condition_info name) =
      [". **".data ++ pyTitle name ++ "**".data,
       ". **Purpose: ".data ++ entry.purpose ++ "**".data,
       ". **How to use: ".data ++ entry.how_to_use ++ "**".data,
       ". **Benefits: ".data ++ entry.benefits ++ "**".data] := by
  obtain ⟨-, hp, hhow, hben⟩ := conditions_hit h
  have hname : '\n' ∉ name := hit_name_no_nl h
  have htitle : '\n' ∉ pyTitle name := pyTitleAux_no_nl name hname false
  simp only [get_condition_info, h, format_list, List.map_cons, List.map_nil]
  have harr : [". **".data ++ pyTitle name ++ "**".data,
      ". **".data ++ ("Purpose: ".data ++ entry.purpose) ++ "**".data,
      ". **".data ++ ("How to use: ".data ++ entry.how_to_use) ++ "**".data,
      ". **".data ++ ("Benefits: ".data ++ entry.benefits) ++ "**".data] =
      [". **".data ++ pyTitle name ++ "**".data,
       ". **Purpose: ".data ++ entry.purpose ++ "**".data,
       ". **How to use: ".data ++ entry.how_to_use ++ "**".data,
       ". **Benefits: ".data ++ entry.benefits ++ "**".data] := by
    simp
  rw [← harr]
  apply splitNl_joinNl
  intro x hx
  simp only [List.mem_cons, List.not_mem_nil, or_false] at hx
  rcases hx with rfl | rfl | rfl | rfl
  · exact append_no_nl (append_no_nl (by decide) htitle) (by decide)
  · exact append_no_nl (append_no_nl (by decide) (append_no_nl (by decide) hp)) (by decide)
  · exact append_no_nl (append_no_nl (by decide) (append_no_nl (by decide) hhow)) (by decide)
  · exact append_no_nl (append_no_nl (by decide) (append_no_nl (by decide) hben)) (by decide)

/-- C6: a known topic name yields a four-line bulleted block — title,
purpose, how-to-use, benefits — and in particular `"Tooth Decay"` yields
four lines whose second contains "Identify cavities or decay". -/
theorem C6_known_condition (name : Str) (entry : ConditionEntry)
    (h : dictFind conditions (pyLower name) = some entry) :
    splitNl (get_condition_info name) =
      [". **".data ++ pyTitle name ++ "**".data,
       ". **Purpose: ".data ++ entry.purpose ++ "**".data,
       ". **How to use: ".data ++ entry.how_to_use ++ "**".data,
       ". **Benefits: ".data ++ entry.benefits ++ "**".data] ∧
    (splitNl (get_condition_info name)).length = 4 ∧
    (splitNl (get_condition_info "Tooth Decay".data)).length = 4 ∧
    containsSub ((splitNl (get_condition_info "Tooth Decay".data)).getD 1 [])
      "Identify cavities or decay".data = true := by
  have hsplit := get_condition_info_hit_split name entry h
  refine ⟨hsplit, by rw [hsplit]; rfl, by decide, by decide⟩

/-- Witness for C6 at `"Tooth Decay"` and its table entry. -/
theorem C6_known_condition_witness :
    dictFind conditions (pyLower "Tooth Decay".data) =
      some ⟨"Identify cavities or decay".data,
            "Upload a tooth photo, select pain area, answer sensitivity quiz".data,
            "Provides early treatment recommendations".data⟩ ∧
    splitNl (get_condition_info "Tooth Decay".data) =
      [". **".data ++ pyTitle "Tooth Decay".data ++ "**".data,
       ". **Purpose: ".data ++ "Identify cavities or decay".data ++ "**".data,
       ". **How to use: ".data ++
         "Upload a tooth photo, select pain area, answer sensitivity quiz".data ++ "**".data,
       ". **Benefits: ".data ++ "Provides early treatment recommendations".data ++ "**".data] :=
  ⟨by decide,
   (C6_known_condition "Tooth Decay".data
      ⟨"Identify cavities or decay".data,
       "Upload a tooth photo, select pain area, answer sensitivity quiz".data,
       "Provides early treatment recommendations".data⟩ (by decide)).1⟩

theorem toLower_fix_of_space (c : Char) (h : pyIsSpace c = true) : Char.toLower c = c := by
  simp only [pyIsSpace, Bool.or_eq_true, decide_eq_true_eq] at h
  rcases h with ((((rfl | rfl) | rfl) | rfl) | rfl) | rfl <;> decide

/-- Padding a string on either side with whitespace never produces one of
the three topic keys: their first and last characters are letters. -/
theorem padded_ne_key (k pre post : Str)
    (hpre : ∀ c ∈ pre, pyIsSpace c = true)
    (hpost : ∀ c ∈ post, pyIsSpace c = true)
    (hne : pre ++ post ≠ []) :
    ∀ km, km = "gum infection".data ∨ km = "tooth decay".data ∨ km = "sensitivity".data →
      pre ++ k ++ post ≠ km := by
  intro km hkm heq
  cases pre with
  | cons c pre' =>
    have hc : pyIsSpace c = true := hpre c (List.mem_cons_self _ _)
    have hhead := congrArg List.head? heq
    simp only [List.cons_append, List.append_assoc, List.head?_cons] at hhead
    rcases hkm with rfl | rfl | rfl
    · have hg : List.head? "gum infection".data = some 'g' := rfl
      rw [hg] at hhead
      rw [Option.some.inj hhead] at hc
      exact absurd hc (by decide)
    · have hg : List.head? "tooth decay".data = some 't' := rfl
      rw [hg] at hhead
      rw [Option.some.inj hhead] at hc
      exact absurd hc (by decide)
    · have hg : List.head? "sensitivity".data = some 's' := rfl
      rw [hg] at hhead
      rw [Option.some.inj hhead] at hc
      exact absurd hc (by decide)
  | nil =>
    cases post with
    | nil => exact hne rfl
    | cons d post' =>
      have hrevEq := congrArg (fun l => List.head? l.reverse) heq
      simp only [List.nil_append, List.reverse_append] at hrevEq
      cases hrev : (d :: post').reverse with
      | nil => exact absurd hrev (by simp)
      | cons x xs =>
        have hx : x ∈ d :: post' := by
          rw [← List.mem_reverse, hrev]
          exact List.mem_cons_self _ _
        have hxs : pyIsSpace x = true := hpost x hx
        rw [hrev] at hrevEq
        simp only [List.cons_append, List.head?_cons] at hrevEq
        rcases hkm with rfl | rfl | rfl
        · have hg : List.head? ("gum infection".data).reverse = some 'n' := rfl
          rw [hg] at hrevEq
          rw [Option.some.inj hrevEq] at hxs
          exact absurd hxs (by decide)
        · have hg : List.head? ("tooth decay".data).reverse = some 'y' := rfl
          rw [hg] at hrevEq
          rw [Option.some.inj hrevEq] at hxs
          exact absurd hxs (by decide)
        · have hg : List.head? ("sensitivity".data).reverse = some 'y' := rfl
          rw [hg] at hrevEq
          rw [Option.some.inj hrevEq] at hxs
          exact absurd hxs (by decide)

/-- C9: `get_condition_info` lowercases but never trims, so a known topic
key padded with any leading or trailing whitespace misses the table and
returns the unknown-topic guidance message instead of the entry. -/
theorem C9_padding_misses (k pre post : Str)
    (hk : k ∈ conditions.map Prod.fst)
    (hpre : ∀ c ∈ pre, pyIsSpace c = true)
    (hpost : ∀ c ∈ post, pyIsSpace c = true)
    (hne : pre ++ post ≠ []) :
    dictFind conditions (pyLower (pre ++ k ++ post)) = none ∧
    get_condition_info (pre ++ k ++ post) =
      (". **I only know these conditions: gum infection, tooth decay, sensitivity**\n. **Pick one!**").data := by
  have hk3 : k = "gum infection".data ∨ k = "tooth decay".data ∨ k = "sensitivity".data := by
    simpa [conditions] using hk
  have hlowpre : pyLower pre = pre :=
    map_id_of_mem _ pre (fun c hc => toLower_fix_of_space c (hpre c hc))
  have hlowpost : pyLower post = post :=
    map_id_of_mem _ post (fun c hc => toLower_fix_of_space c (hpost c hc))
  have hlowk : pyLower k = k := by
    rcases hk3 with rfl | rfl | rfl <;> decide
  have hlow : pyLower (pre ++ k ++ post) = pre ++ k ++ post := by
    rw [pyLower_append, pyLower_append, hlowpre, hlowk, hlowpost]
  have hdiff := padded_ne_key k pre post hpre hpost hne
  have hfind : dictFind conditions (pre ++ k ++ post) = none := by
    simp only [conditions, dictFind]
    rw [if_neg (fun hh => hdiff _ (Or.inl rfl) hh.symm),
      if_neg (fun hh => hdiff _ (Or.inr (Or.inl rfl)) hh.symm),
      if_neg (fun hh => hdiff _ (Or.inr (Or.inr rfl)) hh.symm)]
  have hfind2 : dictFind conditions (pyLower (pre ++ k ++ post)) = none := by
    rw [hlow]
    exact hfind
  exact ⟨hfind2, get_condition_info_miss _ hfind2⟩

/-- Witness for C9: `" tooth decay"` (one leading space) misses. -/
theorem C9_padding_misses_witness :
    "tooth decay".data ∈ conditions.map Prod.fst ∧
    dictFind conditions (pyLower (" ".data ++ "tooth decay".data ++ [])) = none ∧
    get_condition_info (" ".data ++ "tooth decay".data ++ []) =
      (". **I only know these conditions: gum infection, tooth decay, sensitivity**\n. **Pick one!**").data :=
  ⟨by decide,
   (C9_padding_misses "tooth decay".data " ".data [] (by decide)
      (by decide) (by decide) (by decide)).1,
   (C9_padding_misses "tooth decay".data " ".data [] (by decide)
      (by decide) (by decide) (by decide)).2⟩

/-- C10 counterexample: the claim's own example pair — `"tooth decay"`
and `"TOOTH DECAY"` — yields textually identical output, because
`str.title()` uppercases the first letter of each word and lowercases the
rest regardless of the input's casing. -/
theorem C10_counterexample :
    get_condition_info "tooth decay".data = get_condition_info "TOOTH DECAY".data ∧
    pyLower "tooth decay".data = pyLower "TOOTH DECAY".data ∧
    "tooth decay".data ≠ "TOOTH DECAY".data := by
  refine ⟨by decide, by decide, by decide⟩

/-- C10 (amended): on a hit the title line is the title-cased form of the
caller's argument, not the stored key (for `"tooth decay"` it is
`". **Tooth Decay**"`, and title-casing changes the stored key); but
title-casing is fully determined by the lowercase image of the input, so
any two casings of the same topic yield identical output. -/
theorem C10_title_from_input (s1 s2 : Str) (h : pyLower s1 = pyLower s2) :
    get_condition_info s1 = get_condition_info s2 ∧
    (∀ (name : Str) (entry : ConditionEntry),
      dictFind conditions (pyLower name) = some entry →
      (splitNl (get_condition_info name)).getD 0 [] =
        ". **".data ++ pyTitle name ++ "**".data) ∧
    (splitNl (get_condition_info "tooth decay".data)).getD 0 [] = ". **Tooth Decay**".data ∧
    pyTitle "tooth decay".data ≠ "tooth decay".data := by
  refine ⟨?_, ?_, by decide, by decide⟩
  · simp only [get_condition_info]
    rw [h, pyTitle_congr s1 s2 h]
  · intro name entry hfind
    rw [get_condition_info_hit_split name entry hfind]
    rfl

/-- Witness for C10 (amended) at a mixed-case pair for the same topic. -/
theorem C10_title_from_input_witness :
    pyLower "ToOtH DeCaY".data = pyLower "TOOTH decay".data ∧
    get_condition_info "ToOtH DeCaY".data = get_condition_info "TOOTH decay".data :=
  ⟨by decide,
   (C10_title_from_input "ToOtH DeCaY".data "TOOTH decay".data (by decide)).1⟩

theorem enumFrom_map_numbered :
    ∀ (items : List Str) (n : Nat),
      (List.enumFrom n items).map
        (fun p => (Nat.repr (p.1 + 1)).data ++ ". **".data ++ p.2 ++ "**".data) =
      specNumberedItems (n + 1) items
  | [], _ => rfl
  | x :: xs, n => by
    simp only [List.enumFrom, List.map_cons, specNumberedItems]
    rw [enumFrom_map_numbered xs (n + 1)]

/-- C8: the two formatters are total functions: each wraps every item in
the doubled bold marker, the numbered formatter prefixes 1-based indices
in order (shown against an independent running-counter rendering of the
spec's words), the output is the newline-join of the rendered items —
splitting it at newlines recovers them — and the empty list yields the
empty string. -/
theorem C8_formatters :
    (format_list [] = [] ∧ format_numbered [] = []) ∧
    (∀ items : List Str,
      format_list items = joinNl (items.map (fun it => ". **".data ++ it ++ "**".data))) ∧
    (∀ items : List Str, format_numbered items = joinNl (specNumberedItems 1 items)) ∧
    (∀ (hd : Str) (tl : List Str), (∀ x ∈ hd :: tl, '\n' ∉ x) →
      splitNl (format_list (hd :: tl)) =
        (hd :: tl).map (fun it => ". **".data ++ it ++ "**".data)) := by
  refine ⟨⟨rfl, rfl⟩, fun items => rfl, ?_, ?_⟩
  · intro items
    simp only [format_numbered, List.enum]
    rw [enumFrom_map_numbered items 0]
  · intro hd tl hnl
    simp only [format_list, List.map_cons]
    apply splitNl_joinNl
    intro x hx
    rcases List.mem_cons.mp hx with rfl | hx2
    · exact append_no_nl (append_no_nl (by decide) (hnl hd (List.mem_cons_self _ _))) (by decide)
    · obtain ⟨it, hit, rfl⟩ := List.mem_map.mp hx2
      exact append_no_nl (append_no_nl (by decide) (hnl it (List.mem_cons_of_mem _ hit)))
        (by decide)

/-- Witness for C8 at a concrete two-item list. -/
theorem C8_formatters_witness :
    format_list ["alpha".data, "beta".data] = ". **alpha**\n. **beta**".data ∧
    format_numbered ["alpha".data, "beta".data] = "1. **alpha**\n2. **beta**".data ∧
    splitNl (format_list ["alpha".data, "beta".data]) =
      [". **alpha**".data, ". **beta**".data] :=
  ⟨by decide, by decide,
   ((C8_formatters).2.2.2 "alpha".data ["beta".data] (by decide)).trans (by decide)⟩

end Dental
